import Mathlib

/-!
Verification of the notebook `03-Features-Modeling.ipynb`.

The source is a single Jupyter notebook mixing markdown cells and code
cells. We embed the notebook shallowly: each code cell becomes a list of
statements in a small statement language covering exactly the Python forms
that occur in the source (from-imports, a keyword-argument constructor
call bound to a name, a bare name expression, a comment-only line, and a
zero-argument method call). Execution is an explicit state-passing
interpreter over an environment of name bindings; observable behaviour is
recorded as an effect trace, and fallible steps return Except.
-/

/-- Runtime values of the embedded Python fragment: imported modules,
imported classes, the distributed-client handle produced by the Client
constructor, integers, and strings. -/
inductive PyVal where
  | module (name : String)
  | pyClass (name : String)
  | clientHandle
  | int (n : Int)
  | str (s : String)
deriving Repr, DecidableEq, BEq

/-- An argument expression in a call: an integer literal, a string
literal, or a reference to a name. -/
inductive Arg where
  | natLit (n : Nat)
  | strLit (s : String)
  | nameRef (x : String)
deriving Repr, DecidableEq, BEq

/-- The statement forms occurring in the notebook:
from-import with an alias, an assignment of a keyword-argument call,
a bare name expression (displayed by the notebook), a comment-only
line, and a method call on a bound name. -/
inductive Stmt where
  | importFrom (module attrName boundName : String)
  | assignCall (target fn : String) (kwargs : List (String × Arg))
  | exprName (n : String)
  | comment (text : String)
  | methodCall (obj method : String) (args : List Arg)
deriving Repr, DecidableEq, BEq

/-- A notebook cell: markdown narrative or a code cell with its
statements. -/
inductive Cell where
  | markdown (text : String)
  | code (stmts : List Stmt)
deriving Repr, DecidableEq, BEq

/-- Cell 0: the Feature Engineering lecture prose. -/
def cell0 : Cell := .markdown "Feature Engineering: flavors of data, must-haves and nice-to-haves"

/-- Cell 1: placeholder prose. -/
def cell1 : Cell := .markdown "FIXME: image"

/-- Cell 2: the Rise of Python and Dask lecture prose. -/
def cell2 : Cell := .markdown "Rise of Python. Dask: SciPy at Scale"

/-- Cell 3: prose on using Dask for feature transformation. -/
def cell3 : Cell := .markdown "Using Dask for Feature Transformation"

/-- Cell 4: the three imports and the construction of the client. -/
def cell4 : Cell := .code
  [ .importFrom "dask" "dataframe" "ddf",
    .importFrom "dask" "array" "da",
    .importFrom "dask.distributed" "Client" "Client",
    .assignCall "client" "Client"
      [ ("n_workers", .natLit 2),
        ("threads_per_worker", .natLit 1),
        ("memory_limit", .strLit "1GB") ] ]

/-- Cell 5: the bare display expression of the client. -/
def cell5 : Cell := .code [.exprName "client"]

/-- Cell 6: the comment-only placeholder cell. -/
def cell6 : Cell := .code [.comment "FIXME examples"]

/-- Cell 7: the client shutdown. -/
def cell7 : Cell := .code [.methodCall "client" "close" []]

/-- Cell 8: the Modeling heading prose. -/
def cell8 : Cell := .markdown "Modeling"

/-- Cell 9: the empty trailing code cell. -/
def cell9 : Cell := .code []

/-- The whole notebook, cells in source order. -/
def notebook : List Cell := [cell0, cell1, cell2, cell3, cell4, cell5, cell6, cell7, cell8, cell9]

/-- Errors the embedded fragment can raise: unresolvable import,
unbound name, calling a non-callable, and a missing attribute. -/
inductive PyError where
  | importError (m a : String)
  | nameError (n : String)
  | typeError (n : String)
  | attributeError (obj attr : String)
deriving Repr, DecidableEq, BEq

/-- Observable effects of execution. The vocabulary covers the
operation classes relevant to the notebook: client construction and
shutdown, notebook display, and the external-interface operations
(file reads and writes, persisted state, command-line parsing) that a
richer program could perform. -/
inductive Effect where
  | constructClient (kwargs : List (String × PyVal))
  | display (v : PyVal)
  | closeClient
  | fileRead (path : String)
  | fileWrite (path : String)
  | persistState (key : String)
  | parseCommandLine
deriving Repr, DecidableEq, BEq

/-- Interpreter state: the environment of name bindings (most recent
first), whether a client is currently open, and the effect trace. -/
structure PyState where
  env : List (String × PyVal)
  clientOpen : Bool
  effects : List Effect
deriving Repr, DecidableEq, BEq

/-- Look a name up in the environment (most recent binding wins). -/
def lookupEnv (env : List (String × PyVal)) (x : String) : Option PyVal :=
  match env with
  | [] => none
  | (y, v) :: rest => if y == x then some v else lookupEnv rest x

/-- The attributes the dask library exposes to the from-imports that
occur in the source: two submodules and the Client class. -/
def daskAttr (m a : String) : Option PyVal :=
  if m == "dask" && a == "dataframe" then some (.module "dask.dataframe")
  else if m == "dask" && a == "array" then some (.module "dask.array")
  else if m == "dask.distributed" && a == "Client" then some (.pyClass "Client")
  else none

/-- Evaluate an argument expression: literals evaluate to themselves,
a name reference is looked up and raises NameError when unbound. -/
def evalArg (env : List (String × PyVal)) : Arg → Except PyError PyVal
  | .natLit n => .ok (.int (Int.ofNat n))
  | .strLit s => .ok (.str s)
  | .nameRef x =>
    match lookupEnv env x with
    | some v => .ok v
    | none => .error (.nameError x)

/-- Evaluate a keyword-argument list left to right. -/
def evalKwargs (env : List (String × PyVal)) : List (String × Arg) → Except PyError (List (String × PyVal))
  | [] => .ok []
  | (k, a) :: rest => do
    let v ← evalArg env a
    let vs ← evalKwargs env rest
    .ok ((k, v) :: vs)

/-- Execute one statement. Imports resolve against the dask library
table; calling the Client class constructs the client handle, opens the
client and records the construction effect; a bare name is displayed;
a comment is inert; calling close on the client handle closes it and
records the shutdown effect. -/
def execStmt (st : PyState) : Stmt → Except PyError PyState
  | .importFrom m a al =>
    match daskAttr m a with
    | some v => .ok { st with env := (al, v) :: st.env }
    | none => .error (.importError m a)
  | .assignCall tgt fn kwargs =>
    match lookupEnv st.env fn with
    | none => .error (.nameError fn)
    | some (.pyClass "Client") => do
      let vals ← evalKwargs st.env kwargs
      .ok { env := (tgt, .clientHandle) :: st.env,
            clientOpen := true,
            effects := st.effects ++ [.constructClient vals] }
    | some _ => .error (.typeError fn)
  | .exprName n =>
    match lookupEnv st.env n with
    | none => .error (.nameError n)
    | some v => .ok { st with effects := st.effects ++ [.display v] }
  | .comment _ => .ok st
  | .methodCall obj m args =>
    match lookupEnv st.env obj with
    | none => .error (.nameError obj)
    | some .clientHandle =>
      if m == "close" && args == [] then
        .ok { st with clientOpen := false, effects := st.effects ++ [.closeClient] }
      else .error (.attributeError obj m)
    | some _ => .error (.attributeError obj m)

/-- Execute a list of statements in order, stopping at the first
error. -/
def execStmts (st : PyState) : List Stmt → Except PyError PyState
  | [] => .ok st
  | s :: rest => do
    let st2 ← execStmt st s
    execStmts st2 rest

/-- The statements of a cell; markdown cells hold none. -/
def cellStmts : Cell → List Stmt
  | .markdown _ => []
  | .code ss => ss

/-- Execute one cell. -/
def execCell (st : PyState) (c : Cell) : Except PyError PyState :=
  execStmts st (cellStmts c)

/-- Execute the cells in order, stopping at the first error. -/
def execCells (st : PyState) : List Cell → Except PyError PyState
  | [] => .ok st
  | c :: rest => do
    let st2 ← execCell st c
    execCells st2 rest

/-- The initial state: empty environment, no client, no effects. -/
def initState : PyState := { env := [], clientOpen := false, effects := [] }

/-- Running the whole notebook from the initial state. -/
def runNotebook : Except PyError PyState := execCells initState notebook

/-- All statements of all code cells of a notebook, in source order. -/
def allStmts : List Cell → List Stmt
  | [] => []
  | c :: rest => cellStmts c ++ allStmts rest

/-- A statement is executable unless it is comment-only. -/
def Stmt.isExecutable : Stmt → Bool
  | .comment _ => false
  | _ => true

/-- The statement that constructs the client: an assignment calling
the Client class. -/
def Stmt.isClientConstruct : Stmt → Bool
  | .assignCall _ fn _ => fn == "Client"
  | _ => false

/-- The statement that shuts the client down: a close method call. -/
def Stmt.isClientClose : Stmt → Bool
  | .methodCall _ m _ => m == "close"
  | _ => false

/-- Import statements. -/
def Stmt.isImport : Stmt → Bool
  | .importFrom .. => true
  | _ => false

/-- Whether an argument expression reads the given name. -/
def argReferences (a : Arg) (x : String) : Bool :=
  match a with
  | .nameRef n => n == x
  | _ => false

/-- Whether a statement reads the given name (binding a name does not
count as reading it). -/
def Stmt.references (s : Stmt) (x : String) : Bool :=
  match s with
  | .importFrom .. => false
  | .assignCall _ fn kwargs => fn == x || kwargs.any (fun ka => argReferences ka.2 x)
  | .exprName n => n == x
  | .comment _ => false
  | .methodCall obj _ args => obj == x || args.any (fun a => argReferences a x)

/-- Implementation logic, as opposed to the inert kinds present in the
source: an import, the client construction, a bare display of a name,
a comment, and the client shutdown are not implementation; any other
call or method invocation would be. -/
def Stmt.isImplementationLogic : Stmt → Bool
  | .importFrom .. => false
  | .assignCall _ fn _ => fn != "Client"
  | .exprName _ => false
  | .comment _ => false
  | .methodCall _ m _ => m != "close"

/-- Whether a cell contains the client construction. -/
def Cell.hasConstruct (c : Cell) : Bool := (cellStmts c).any Stmt.isClientConstruct

/-- Whether a cell contains the client shutdown. -/
def Cell.hasClose (c : Cell) : Bool := (cellStmts c).any Stmt.isClientClose

/-- The cells strictly between the cell containing the client
construction and the cell containing the shutdown. -/
def cellsBetween (nb : List Cell) : List Cell :=
  ((nb.dropWhile (fun c => !c.hasConstruct)).drop 1).takeWhile (fun c => !c.hasClose)

/-- The statements after the client shutdown, in source order. -/
def stmtsAfterClose (nb : List Cell) : List Stmt :=
  ((allStmts nb).dropWhile (fun s => !s.isClientClose)).drop 1

/-- The keyword arguments of each client construction in a notebook. -/
def constructKwargs (nb : List Cell) : List (List (String × Arg)) :=
  (allStmts nb).filterMap (fun s =>
    match s with
    | .assignCall _ fn kwargs => if fn == "Client" then some kwargs else none
    | _ => none)

/-- The final environment of a successful run; empty on error. -/
def finalEnv : List (String × PyVal) :=
  match runNotebook with
  | .ok st => st.env
  | .error _ => []

/-- The effect trace of a successful run; empty on error. -/
def finalEffects : List Effect :=
  match runNotebook with
  | .ok st => st.effects
  | .error _ => []

/-- Effects that touch an external interface: file reads or writes,
persisted state, command-line parsing. -/
def Effect.isExternalInterface : Effect → Bool
  | .fileRead _ => true
  | .fileWrite _ => true
  | .persistState _ => true
  | .parseCommandLine => true
  | _ => false

/-- Values that are data entities (dataframe-like or array-like data);
modules, classes and the client handle are not. -/
def PyVal.isDataEntity : PyVal → Bool
  | .module _ => false
  | .pyClass _ => false
  | .clientHandle => false
  | .int _ => false
  | .str _ => false

/-- Cell 4 with the two unused dask submodule imports removed. -/
def cell4Trimmed : Cell := .code
  [ .importFrom "dask.distributed" "Client" "Client",
    .assignCall "client" "Client"
      [ ("n_workers", .natLit 2),
        ("threads_per_worker", .natLit 1),
        ("memory_limit", .strLit "1GB") ] ]

/-- The notebook with the ddf and da imports removed. -/
def notebookTrimmed : List Cell :=
  [cell0, cell1, cell2, cell3, cell4Trimmed, cell5, cell6, cell7, cell8, cell9]

/-- Running the trimmed notebook. -/
def runTrimmed : Except PyError PyState := execCells initState notebookTrimmed

/-- The observable behaviour of a run: its error status and effect
trace. -/
def observe (r : Except PyError PyState) : Except PyError (List Effect) :=
  r.map PyState.effects

/-- An argument expression that is a literal constant. -/
def Arg.isLiteral : Arg → Bool
  | .natLit _ => true
  | .strLit _ => true
  | .nameRef _ => false

/-- The keyword arguments passed to the one client construction of the
source. -/
def clientKwargs : List (String × Arg) :=
  [ ("n_workers", .natLit 2),
    ("threads_per_worker", .natLit 1),
    ("memory_limit", .strLit "1GB") ]

/-- Statements that invoke a call of any kind. -/
def Stmt.isCall : Stmt → Bool
  | .assignCall .. => true
  | .methodCall .. => true
  | _ => false

/-- Whether the client is still open after a successful run; false on
error. -/
def finalClientOpen : Bool :=
  match runNotebook with
  | .ok st => st.clientOpen
  | .error _ => false

/-- The final environment of a successful run of the trimmed notebook;
empty on error. -/
def trimmedEnv : List (String × PyVal) :=
  match runTrimmed with
  | .ok st => st.env
  | .error _ => []

/-- C1, as the spec states it, fails on the code: the source contains
an executable statement that is neither the client construction nor the
client shutdown, namely the import statements of cell 4 and the bare
display expression of cell 5. -/
theorem C1_counterexample :
    ((allStmts notebook).filter
      (fun s => s.isExecutable && !(s.isClientConstruct || s.isClientClose))) ≠ [] := by
  decide

/-- C1 (amended): the executable statements of the source are exactly
the three from-imports, the client construction with its three keyword
arguments, one bare display expression of the client, and the client
shutdown; nothing else in any code cell is executable. -/
theorem C1_executable_statements :
    (allStmts notebook).filter (fun s => s.isExecutable) =
      [ .importFrom "dask" "dataframe" "ddf",
        .importFrom "dask" "array" "da",
        .importFrom "dask.distributed" "Client" "Client",
        .assignCall "client" "Client" clientKwargs,
        .exprName "client",
        .methodCall "client" "close" [] ] := by
  decide

/-- C2: the source contains exactly one client construction, and its
keyword arguments are the literal constants n_workers = 2,
threads_per_worker = 1, memory_limit = "1GB". -/
theorem C2_client_arguments :
    constructKwargs notebook =
      [[ ("n_workers", .natLit 2),
         ("threads_per_worker", .natLit 1),
         ("memory_limit", .strLit "1GB") ]] := by
  decide

/-- C3, as the spec states it, fails on the code: between the cell
constructing the client and the cell closing it there is not a single
intervening cell but two (the bare display of the client and the
comment-only placeholder). -/
theorem C3_counterexample : (cellsBetween notebook).length ≠ 1 := by
  decide

/-- C3 (amended): between the construction and the shutdown no work is
performed on or submitted to the client: the two intervening cells are
a bare display expression of the client and a comment-only placeholder,
and no call of any kind (in particular no transformation, loading,
feature computation, or modeling operation) occurs in that interval. -/
theorem C3_no_work_between :
    cellsBetween notebook =
        [Cell.code [.exprName "client"], Cell.code [.comment "FIXME examples"]] ∧
    (allStmts (cellsBetween notebook)).all (fun s => !s.isCall) = true := by
  exact ⟨rfl, rfl⟩

/-- C4: running the notebook raises no error: every cell executes
successfully, the client construction and the shutdown both complete,
and the final state is reached with the client closed. -/
theorem C4_runs_without_raising :
    runNotebook = Except.ok
      { env := [ ("client", .clientHandle),
                 ("Client", .pyClass "Client"),
                 ("da", .module "dask.array"),
                 ("ddf", .module "dask.dataframe") ],
        clientOpen := false,
        effects := [ .constructClient
                       [ ("n_workers", .int 2),
                         ("threads_per_worker", .int 1),
                         ("memory_limit", .str "1GB") ],
                     .display .clientHandle,
                     .closeClient ] } := by
  rfl

/-- C5: the source contains zero statements of implementation logic:
every statement is one of the inert kinds (import, client construction,
bare display, comment, client shutdown), so no program logic beyond
setup and teardown is present anywhere. -/
theorem C5_no_implementation_logic :
    (allStmts notebook).filter Stmt.isImplementationLogic = [] := by
  decide

/-- C6, as the spec states it, fails on the code: executing the
notebook does leave program state behind, namely a nonempty final
environment of name bindings (ddf, da, Client and client). -/
theorem C6_counterexample : finalEnv ≠ [] := by
  decide

/-- C6 (amended): no data entity is ever defined, manipulated, or
persisted: the only bindings executing the notebook leaves behind are
the two imported modules, the imported Client class, and the client
handle, none of which is a data entity, and the client bound there is
closed by the end of the run. -/
theorem C6_no_data_entities :
    finalEnv = [ ("client", .clientHandle),
                 ("Client", .pyClass "Client"),
                 ("da", .module "dask.array"),
                 ("ddf", .module "dask.dataframe") ] ∧
    finalEnv.all (fun p => !p.2.isDataEntity) = true ∧
    finalClientOpen = false := by
  exact ⟨rfl, rfl, rfl⟩

/-- C7: running the notebook touches no external interface: its effect
trace contains no file read, no file write, no persisted state and no
command-line parsing; the only effects are the client construction, one
display, and the client shutdown. -/
theorem C7_no_external_interfaces :
    finalEffects.filter Effect.isExternalInterface = [] ∧
    finalEffects = [ .constructClient
                       [ ("n_workers", .int 2),
                         ("threads_per_worker", .int 1),
                         ("memory_limit", .str "1GB") ],
                     .display .clientHandle,
                     .closeClient ] := by
  exact ⟨rfl, rfl⟩

/-- C8: exactly one client is constructed and exactly one close occurs,
the close effect is recorded exactly once, and no statement after the
close references the client (indeed no statement occurs after the close
at all), so the client is never used after it is closed. -/
theorem C8_close_once_and_last :
    ((allStmts notebook).filter Stmt.isClientConstruct).length = 1 ∧
    ((allStmts notebook).filter Stmt.isClientClose).length = 1 ∧
    (stmtsAfterClose notebook).all (fun s => !(s.references "client")) = true ∧
    stmtsAfterClose notebook = [] ∧
    (finalEffects.filter (fun e => e == Effect.closeClient)).length = 1 := by
  exact ⟨rfl, rfl, rfl, rfl, rfl⟩

/-- C9: the names ddf and da are never read by any statement of the
source, and the notebook with those two imports removed is
observationally equivalent to the original: it raises the same errors
and produces the same effect trace, and its final environment is the
original one minus the ddf and da bindings. -/
theorem C9_unused_imports_equivalent :
    (allStmts notebook).all (fun s => !(s.references "ddf") && !(s.references "da")) = true ∧
    observe runNotebook = observe runTrimmed ∧
    finalEnv.filter (fun p => p.1 != "ddf" && p.1 != "da") = trimmedEnv := by
  exact ⟨rfl, rfl, rfl⟩

/-- C10: the program takes no input and every configuration value of
the one client construction is a literal constant, so evaluating those
arguments in any environment whatsoever (in particular, on any two
runs) yields the identical values n_workers = 2, threads_per_worker = 1,
memory_limit = "1GB". -/
theorem C10_literal_deterministic_args :
    constructKwargs notebook = [clientKwargs] ∧
    clientKwargs.all (fun ka => ka.2.isLiteral) = true ∧
    ∀ env : List (String × PyVal),
      evalKwargs env clientKwargs =
        .ok [ ("n_workers", .int 2),
              ("threads_per_worker", .int 1),
              ("memory_limit", .str "1GB") ] := by
  exact ⟨rfl, rfl, fun _ => rfl⟩
